import Mathlib

/-!
# Verification of the FibreLaserController sketch

A shallow embedding of `src/FibreLaserController.ino` (a single-threaded
Arduino/Teensy sketch).  Digital pin levels are the two-valued type `Level`;
the sketch's global variables and the levels of its output pins form the
state record `St`.  Each C function becomes a Lean function on `St`; the
functions that perform timed digital writes additionally return a trace of
events (`Ev`), recording every `digitalWriteFast` and every blocking
`delay(ms)` in program order, so that ordering/separation properties can be
stated.  `float` arithmetic is modelled by exact rationals (the constants
involved are decimal literals and the claims are stated up to rounding);
the C `(int)` cast is truncation toward zero.
-/

/-- A digital logic level (`HIGH` / `LOW` in the sketch). -/
inductive Level where
  | HIGH
  | LOW
deriving DecidableEq, Repr

open Level

-- Pin numbers, from the `#define` block of the sketch.
def ActionSwitchPin1 : Nat := 1
def ActionSwitchPin2 : Nat := 2
def ExternalLEDPin : Nat := 3
def AlarmLSBPin : Nat := 4
def AlarmMSBPin : Nat := 5
def LaserPowerBit0Pin : Nat := 6
def LaserPowerBit1Pin : Nat := 7
def LaserPowerBit2Pin : Nat := 8
def LaserPowerBit3Pin : Nat := 9
def LaserPowerBit4Pin : Nat := 10
def LaserPowerBit5Pin : Nat := 11
def LaserPowerBit6Pin : Nat := 12
def InternalLEDPin : Nat := 13
def LaserPowerBit7Pin : Nat := 14
def LaserMOSignalPin : Nat := 15
def LaserONSignalPin : Nat := 16
def LaserPulsesPin : Nat := 17
def LaserGuidePin : Nat := 18
def LaserTriggerPin : Nat := 22

/-- Levels of the sketch's output pins (named after the `#define`d pins). -/
structure Pins where
  ExternalLED : Level
  LaserPowerBit0 : Level
  LaserPowerBit1 : Level
  LaserPowerBit2 : Level
  LaserPowerBit3 : Level
  LaserPowerBit4 : Level
  LaserPowerBit5 : Level
  LaserPowerBit6 : Level
  LaserPowerBit7 : Level
  InternalLED : Level
  LaserMOSignal : Level
  LaserONSignal : Level
  LaserPulses : Level
  LaserGuide : Level
deriving DecidableEq, Repr

/-- The sketch's global state: the mutable globals together with the output
pin levels, the periods the two `IntervalTimer`s are configured with
(`alarmTimerPeriod = none` until `AlarmLEDFlashTimer.begin` first runs), and
the last value written by `analogWrite` to the display output. -/
structure St where
  operatingMode : Nat
  enableLaserTrigger : Nat
  laserPower : Nat
  alarmState : String
  laserPulsePeriod : ℚ
  pulseTimerPeriod : ℚ
  alarmTimerPeriod : Option ℚ
  display : ℤ
  pins : Pins
deriving DecidableEq, Repr

/-- The inputs the sketch samples during one `loop()` iteration: the two
alarm pins, the two (debounced) action-switch reads, and the 8-bit dial. -/
structure Inputs where
  alarmLSB : Level
  alarmMSB : Level
  sw1 : Level
  sw2 : Level
  dial : Nat
deriving DecidableEq, Repr

/-- A trace event: a `digitalWriteFast(pin, lvl)` or a blocking `delay(ms)`. -/
inductive Ev where
  | write (pin : Nat) (lvl : Level)
  | delay (ms : Nat)
deriving DecidableEq, Repr

/-- The C `(int)` cast on our rational model of `float`: truncation toward
zero. -/
def cIntCast (q : ℚ) : ℤ :=
  if 0 ≤ q then ⌊q⌋ else ⌈q⌉

/-- The constant `float DisplayMultiplier = 1.240909;`. -/
def DisplayMultiplier : ℚ := 1.240909

/-- Embeds `DisplayOutput(float Value)`: multiplies by `DisplayMultiplier` and
writes the `(int)`-cast result to the analog display output. -/
def DisplayOutput (Value : ℚ) (st : St) : St :=
  { st with display := cIntCast (Value * DisplayMultiplier) }

/-- Embeds `AlarmLEDFlasher()`: toggles the external LED. -/
def AlarmLEDFlasher (st : St) : St :=
  if st.pins.ExternalLED = HIGH then
    { st with pins := { st.pins with ExternalLED := LOW } }
  else
    { st with pins := { st.pins with ExternalLED := HIGH } }

/-- Embeds `LaserPulseGenerator()`: toggles the laser-pulses pin, then drives the
laser ON signal HIGH when `EnableLaserTrigger == 0` and LOW otherwise. -/
def LaserPulseGenerator (st : St) : St :=
  let st :=
    if st.pins.LaserPulses = HIGH then
      { st with pins := { st.pins with LaserPulses := LOW } }
    else
      { st with pins := { st.pins with LaserPulses := HIGH } }
  if st.enableLaserTrigger = 0 then
    { st with pins := { st.pins with LaserONSignal := HIGH } }
  else
    { st with pins := { st.pins with LaserONSignal := LOW } }

/-- One `if (TemporaryLaserPower >= bitVal) {...} else {...}` block of
`SetPowerLevel` (the source repeats this block verbatim for each bit, MSB
first): drives the bit's pin LOW and subtracts `bitVal` when the remaining
value reaches `bitVal`, else drives it HIGH.  The state/remaining-value pair
is threaded; the `digitalWriteFast` call is appended to the trace. -/
def powerBitStep (bitVal pinNum : Nat) (setPin : Pins → Level → Pins) :
    St × Nat × List Ev → St × Nat × List Ev
  | (st, t, evs) =>
    if bitVal ≤ t then
      ({ st with pins := setPin st.pins LOW }, t - bitVal, evs ++ [Ev.write pinNum LOW])
    else
      ({ st with pins := setPin st.pins HIGH }, t, evs ++ [Ev.write pinNum HIGH])

/-- Embeds `SetPowerLevel()`: stores the dial reading in `LaserPower`, shows
`1.17641 * LaserPower` on the display, then peels the value bit by bit from
the MSB down (`TemporaryLaserPower`), driving each power pin LOW when the
bit is set and HIGH otherwise. -/
def SetPowerLevel (dial : Nat) (st : St) : St × List Ev :=
  let st := { st with laserPower := dial }
  let st := DisplayOutput (1.17641 * (dial : ℚ)) st
  let x := (st, st.laserPower, ([] : List Ev))
  let x := powerBitStep 128 LaserPowerBit7Pin (fun p l => { p with LaserPowerBit7 := l }) x
  let x := powerBitStep 64 LaserPowerBit6Pin (fun p l => { p with LaserPowerBit6 := l }) x
  let x := powerBitStep 32 LaserPowerBit5Pin (fun p l => { p with LaserPowerBit5 := l }) x
  let x := powerBitStep 16 LaserPowerBit4Pin (fun p l => { p with LaserPowerBit4 := l }) x
  let x := powerBitStep 8 LaserPowerBit3Pin (fun p l => { p with LaserPowerBit3 := l }) x
  let x := powerBitStep 4 LaserPowerBit2Pin (fun p l => { p with LaserPowerBit2 := l }) x
  let x := powerBitStep 2 LaserPowerBit1Pin (fun p l => { p with LaserPowerBit1 := l }) x
  let x := powerBitStep 1 LaserPowerBit0Pin (fun p l => { p with LaserPowerBit0 := l }) x
  (x.1, x.2.2)

/-- Embeds `SetPulseRate()`: maps the dial reading to a frequency
`0.156863 * dial + 25`, stores the half-period `500 / Frequency` in
`LaserPulsePeriod`, restarts `LaserPulseTimer` with that half-period, and
shows `Frequency * 10` on the display. -/
def SetPulseRate (dial : Nat) (st : St) : St :=
  let Frequency : ℚ := 0.156863 * (dial : ℚ) + 25
  let st := { st with laserPulsePeriod := 500 / Frequency }
  let st := { st with pulseTimerPeriod := st.laserPulsePeriod }
  DisplayOutput (Frequency * 10) st

/-- Embeds `AlarmActions(uint8_t Mode)`: (re)starts the alarm flash timer at
1 000 000 µs, zeroes the display, clears `EnableLaserTrigger`, de-asserts
ON, waits 1 ms, de-asserts MO, and sets `AlarmState` per the mode. -/
def AlarmActions (Mode : Nat) (st : St) : St × List Ev :=
  let st := { st with alarmTimerPeriod := some 1000000 }
  let st := DisplayOutput 0 st
  let st := { st with enableLaserTrigger := 0 }
  let st := { st with pins := { st.pins with LaserONSignal := HIGH } }
  let st := { st with pins := { st.pins with LaserMOSignal := HIGH } }
  let st := { st with alarmState :=
    if Mode = 3 then "Temperature"
    else if Mode = 4 then "High Reflection"
    else if Mode = 5 then "MO"
    else "Reserved Mode" }
  (st, [Ev.write LaserONSignalPin HIGH, Ev.delay 1, Ev.write LaserMOSignalPin HIGH])

/-- Embeds `GetModeFunction(uint8_t CurrentMode)`: derives the next mode from the
alarm pins and (when no alarm) the debounced switches; when the new mode is
ON (0) and the current mode is 1 or 2 it runs the startup sequence
MO-low, `delay(5)`, ON-low (the `EnableLaserTrigger = 1` line in the source
is commented out and hence absent here).  Returns the new mode, the updated
state and the event trace. -/
def GetModeFunction (inp : Inputs) (CurrentMode : Nat) (st : St) :
    Nat × St × List Ev :=
  if inp.alarmLSB = HIGH then
    if inp.alarmMSB = HIGH then (5, st, []) else (4, st, [])
  else
    if inp.alarmMSB = HIGH then
      let NewMode : Nat := if inp.sw1 = LOW then 0 else if inp.sw2 = LOW then 2 else 1
      if NewMode = 0 ∧ (CurrentMode = 1 ∨ CurrentMode = 2) then
        let st := { st with pins := { st.pins with LaserMOSignal := LOW } }
        let st := { st with pins := { st.pins with LaserONSignal := LOW } }
        (NewMode, st,
          [Ev.write LaserMOSignalPin LOW, Ev.delay 5, Ev.write LaserONSignalPin LOW])
      else
        (NewMode, st, [])
    else
      (3, st, [])

/-- Embeds `ModeRunFunction(uint8_t Mode)`: the per-mode action table. -/
def ModeRunFunction (dial : Nat) (Mode : Nat) (st : St) : St × List Ev :=
  if Mode = 0 then
    let st := { st with pins := { st.pins with LaserMOSignal := LOW } }
    let st := { st with pins := { st.pins with LaserONSignal := LOW } }
    let rp := SetPowerLevel dial st
    let st := { rp.1 with pins := { rp.1.pins with ExternalLED := HIGH } }
    (st, [Ev.write LaserMOSignalPin LOW, Ev.write LaserONSignalPin LOW] ++ rp.2 ++
      [Ev.write ExternalLEDPin HIGH])
  else if Mode = 1 then
    let st := { st with enableLaserTrigger := 0 }
    let st := { st with pins := { st.pins with LaserONSignal := HIGH } }
    let st := { st with pins := { st.pins with LaserMOSignal := HIGH } }
    let rp := SetPowerLevel dial st
    let st := { rp.1 with pins := { rp.1.pins with ExternalLED := LOW } }
    (st, [Ev.write LaserONSignalPin HIGH, Ev.delay 1, Ev.write LaserMOSignalPin HIGH] ++
      rp.2 ++ [Ev.write ExternalLEDPin LOW])
  else if Mode = 2 then
    let st := { st with enableLaserTrigger := 0 }
    let st := { st with pins := { st.pins with LaserONSignal := HIGH } }
    let st := { st with pins := { st.pins with LaserMOSignal := HIGH } }
    let st := SetPulseRate dial st
    let st := { st with pins := { st.pins with ExternalLED := LOW } }
    (st, [Ev.write LaserONSignalPin HIGH, Ev.delay 1, Ev.write LaserMOSignalPin HIGH,
      Ev.write ExternalLEDPin LOW])
  else if Mode = 3 then AlarmActions Mode st
  else if Mode = 4 then AlarmActions Mode st
  else if Mode = 5 then AlarmActions Mode st
  else AlarmActions Mode st

/-- The 1 Hz debug block at the top of `loop()` (serial print plus the
internal-LED toggle); `serialDue` tells whether `serialMetro.check()`
fired. -/
def serialBlock (serialDue : Bool) (st : St) : St :=
  if serialDue then
    if st.pins.InternalLED = HIGH then
      { st with pins := { st.pins with InternalLED := LOW } }
    else
      { st with pins := { st.pins with InternalLED := HIGH } }
  else st

/-- One iteration of `loop()`: the debug block, then
`OperatingMode = GetModeFunction(OperatingMode)` followed by
`ModeRunFunction(OperatingMode)`. -/
def loopCycle (serialDue : Bool) (inp : Inputs) (st : St) : St × List Ev :=
  let st := serialBlock serialDue st
  let rg := GetModeFunction inp st.operatingMode st
  let st := { rg.2.1 with operatingMode := rg.1 }
  let rm := ModeRunFunction inp.dial rg.1 st
  (rm.1, rg.2.2 ++ rm.2)

/-- The state established by `setup()` and the global initialisers:
mode 7, trigger gate 0, power 0, `AlarmState = "NONE"`,
`LaserPulsePeriod = 12.5` (and the pulse timer started with it), the alarm
flash timer not yet started, all laser-power bits / MO / ON / pulses HIGH,
the guide LOW, both LEDs LOW. -/
def initialState : St :=
  { operatingMode := 7
    enableLaserTrigger := 0
    laserPower := 0
    alarmState := "NONE"
    laserPulsePeriod := 12.5
    pulseTimerPeriod := 12.5
    alarmTimerPeriod := none
    display := 0
    pins :=
      { ExternalLED := LOW
        LaserPowerBit0 := HIGH
        LaserPowerBit1 := HIGH
        LaserPowerBit2 := HIGH
        LaserPowerBit3 := HIGH
        LaserPowerBit4 := HIGH
        LaserPowerBit5 := HIGH
        LaserPowerBit6 := HIGH
        LaserPowerBit7 := HIGH
        InternalLED := LOW
        LaserMOSignal := HIGH
        LaserONSignal := HIGH
        LaserPulses := HIGH
        LaserGuide := LOW } }

/-- The states the program can reach: the `setup()` state, closed under
`loop()` iterations (with arbitrary sampled inputs) and the two
interrupt-level callbacks. -/
inductive Reachable : St → Prop where
  | init : Reachable initialState
  | cycle (serialDue : Bool) (inp : Inputs) {s : St} :
      Reachable s → Reachable (loopCycle serialDue inp s).1
  | pulse {s : St} : Reachable s → Reachable (LaserPulseGenerator s)
  | flash {s : St} : Reachable s → Reachable (AlarmLEDFlasher s)

/-- Milliseconds of `delay` in a trace strictly before the first
`digitalWriteFast(LaserONSignalPin, LOW)`; `none` if ON is never asserted. -/
def delaysUntilONLow : List Ev → Option Nat
  | [] => none
  | Ev.write p l :: rest =>
      if p = LaserONSignalPin ∧ l = LOW then some 0 else delaysUntilONLow rest
  | Ev.delay n :: rest => Option.map (fun k => n + k) (delaysUntilONLow rest)

/-- Drop a trace through (and including) the first
`digitalWriteFast(LaserMOSignalPin, LOW)`; `none` if MO is never asserted. -/
def dropThroughMOLow : List Ev → Option (List Ev)
  | [] => none
  | Ev.write p l :: rest =>
      if p = LaserMOSignalPin ∧ l = LOW then some rest else dropThroughMOLow rest
  | Ev.delay _ :: rest => dropThroughMOLow rest

/-- Milliseconds of blocking delay between the first MO assertion and the
next ON assertion in a trace. -/
def moToOnSeparation (tr : List Ev) : Option Nat :=
  (dropThroughMOLow tr).bind delaysUntilONLow

/-- The shutdown ordering of one trace: ON is driven HIGH, then exactly a
1 ms blocking delay, then MO is driven HIGH. -/
def ShutdownSeq (tr : List Ev) : Prop :=
  ∃ pre post,
    tr = pre ++ Ev.write LaserONSignalPin HIGH :: Ev.delay 1 ::
      Ev.write LaserMOSignalPin HIGH :: post

/-- Modelled from the spec: the display write as the spec's words state
it, `round(x * DisplayMultiplier)`; the source instead applies a C `(int)`
cast (truncation toward zero) to `x * DisplayMultiplier`. -/
def displayValueSpec (x : ℚ) : ℤ :=
  round (x * DisplayMultiplier)

/-! ## Basic lemmas about the embedded functions -/

/-- A `powerBitStep` only touches the pins. -/
lemma powerBitStep_enableLaserTrigger (b p : Nat) (f : Pins → Level → Pins)
    (x : St × Nat × List Ev) :
    (powerBitStep b p f x).1.enableLaserTrigger = x.1.enableLaserTrigger := by
  rcases x with ⟨s, t, evs⟩
  simp only [powerBitStep]
  split <;> rfl

/-- A `powerBitStep` only touches the pins. -/
lemma powerBitStep_operatingMode (b p : Nat) (f : Pins → Level → Pins)
    (x : St × Nat × List Ev) :
    (powerBitStep b p f x).1.operatingMode = x.1.operatingMode := by
  rcases x with ⟨s, t, evs⟩
  simp only [powerBitStep]
  split <;> rfl

/-- `SetPowerLevel` never touches the trigger gate. -/
lemma setPowerLevel_enableLaserTrigger (d : Nat) (s : St) :
    (SetPowerLevel d s).1.enableLaserTrigger = s.enableLaserTrigger := by
  simp only [SetPowerLevel, DisplayOutput, powerBitStep_enableLaserTrigger]

/-- `SetPowerLevel` never touches the operating mode. -/
lemma setPowerLevel_operatingMode (d : Nat) (s : St) :
    (SetPowerLevel d s).1.operatingMode = s.operatingMode := by
  simp only [SetPowerLevel, DisplayOutput, powerBitStep_operatingMode]

/-- `ModeRunFunction` never touches the operating mode. -/
lemma modeRun_operatingMode (d m : Nat) (s : St) :
    (ModeRunFunction d m s).1.operatingMode = s.operatingMode := by
  unfold ModeRunFunction
  split_ifs <;>
    simp only [SetPulseRate, AlarmActions, DisplayOutput, setPowerLevel_operatingMode]

/-- `GetModeFunction` never touches the trigger gate (the
`EnableLaserTrigger = 1` line of the startup sequence is commented out in
the source). -/
lemma getMode_enableLaserTrigger (inp : Inputs) (m : Nat) (s : St) :
    (GetModeFunction inp m s).2.1.enableLaserTrigger = s.enableLaserTrigger := by
  simp only [GetModeFunction]
  split_ifs <;> rfl

/-- The debug block never touches the trigger gate. -/
lemma serialBlock_enableLaserTrigger (sd : Bool) (s : St) :
    (serialBlock sd s).enableLaserTrigger = s.enableLaserTrigger := by
  unfold serialBlock
  split_ifs <;> rfl

/-- The pulse-generator callback never touches the trigger gate. -/
lemma pulseGen_enableLaserTrigger (s : St) :
    (LaserPulseGenerator s).enableLaserTrigger = s.enableLaserTrigger := by
  simp only [LaserPulseGenerator]
  split_ifs <;> rfl

/-- The alarm-flasher callback never touches the trigger gate. -/
lemma flasher_enableLaserTrigger (s : St) :
    (AlarmLEDFlasher s).enableLaserTrigger = s.enableLaserTrigger := by
  unfold AlarmLEDFlasher
  split_ifs <;> rfl

/-- `ModeRunFunction` keeps the trigger gate at zero: modes 1, 2 and the
alarm modes clear it, and mode 0 leaves it untouched (its
`EnableLaserTrigger = 1` line is commented out in the source). -/
lemma modeRun_enableLaserTrigger (d m : Nat) (s : St)
    (h : s.enableLaserTrigger = 0) :
    (ModeRunFunction d m s).1.enableLaserTrigger = 0 := by
  unfold ModeRunFunction
  split_ifs <;>
    simp only [SetPulseRate, AlarmActions, DisplayOutput,
      setPowerLevel_enableLaserTrigger, h]

/-- One `loop()` iteration keeps the trigger gate at zero. -/
lemma loopCycle_enableLaserTrigger (sd : Bool) (inp : Inputs) (s : St)
    (h : s.enableLaserTrigger = 0) :
    (loopCycle sd inp s).1.enableLaserTrigger = 0 := by
  simp only [loopCycle]
  refine modeRun_enableLaserTrigger _ _ _ ?_
  show (GetModeFunction inp (serialBlock sd s).operatingMode
    (serialBlock sd s)).2.1.enableLaserTrigger = 0
  rw [getMode_enableLaserTrigger, serialBlock_enableLaserTrigger]
  exact h

/-- With the gate at zero, a pulse tick drives the ON signal HIGH. -/
lemma pulseGen_on_of_gate_zero (s : St) (h : s.enableLaserTrigger = 0) :
    (LaserPulseGenerator s).pins.LaserONSignal = HIGH := by
  simp only [LaserPulseGenerator]
  split_ifs <;> rfl

/-- C2: in every state reachable from the initial state the trigger-gate
variable `EnableLaserTrigger` equals 0 (the assignments to 1 are commented
out in the source), and consequently every invocation of
`LaserPulseGenerator` drives the laser ON-enable output HIGH
(de-asserted). -/
theorem reachable_gate_zero_and_pulse_deasserts (s : St) (h : Reachable s) :
    s.enableLaserTrigger = 0 ∧
      (LaserPulseGenerator s).pins.LaserONSignal = HIGH := by
  have key : s.enableLaserTrigger = 0 := by
    induction h with
    | init => rfl
    | cycle sd inp hr ih => exact loopCycle_enableLaserTrigger _ _ _ ih
    | pulse hr ih => rw [pulseGen_enableLaserTrigger]; exact ih
    | flash hr ih => rw [flasher_enableLaserTrigger]; exact ih
  exact ⟨key, pulseGen_on_of_gate_zero s key⟩

/-- Witness for C2 at the initial state. -/
theorem reachable_gate_zero_and_pulse_deasserts_witness :
    initialState.enableLaserTrigger = 0 ∧
      (LaserPulseGenerator initialState).pins.LaserONSignal = HIGH :=
  reachable_gate_zero_and_pulse_deasserts initialState Reachable.init

/-- C3: for every current mode, dial value, state and switch reads,
`GetModeFunction` maps the two alarm input bits per the table:
(LSB=1,MSB=1) returns mode 5 (MO alarm), (LSB=1,MSB=0) returns mode 4
(Reflection alarm), (LSB=0,MSB=0) returns mode 3 (Temperature alarm), and
only (LSB=0,MSB=1) proceeds to evaluate the switches. -/
theorem getMode_alarm_table (m d : Nat) (st : St) (s1 s2 : Level) :
    (GetModeFunction ⟨HIGH, HIGH, s1, s2, d⟩ m st).1 = 5 ∧
    (GetModeFunction ⟨HIGH, LOW, s1, s2, d⟩ m st).1 = 4 ∧
    (GetModeFunction ⟨LOW, LOW, s1, s2, d⟩ m st).1 = 3 ∧
    (GetModeFunction ⟨LOW, HIGH, s1, s2, d⟩ m st).1 =
      (if s1 = LOW then 0 else if s2 = LOW then 2 else 1) := by
  refine ⟨rfl, rfl, rfl, ?_⟩
  simp only [GetModeFunction]
  split_ifs <;> simp_all

/-- C9: when no alarm is indicated (LSB=0, MSB=1), the mode returned by
`GetModeFunction` is determined by the switches with switch 1 taking
priority: switch 1 LOW gives mode 0 (ON); otherwise switch 2 LOW gives
mode 2 (OFF_SET_RATE); otherwise mode 1 (IDLE). -/
theorem getMode_switch_priority (m d : Nat) (st : St) (s2 : Level) :
    (GetModeFunction ⟨LOW, HIGH, LOW, s2, d⟩ m st).1 = 0 ∧
    (GetModeFunction ⟨LOW, HIGH, HIGH, LOW, d⟩ m st).1 = 2 ∧
    (GetModeFunction ⟨LOW, HIGH, HIGH, HIGH, d⟩ m st).1 = 1 := by
  refine ⟨?_, ?_, ?_⟩ <;> (simp only [GetModeFunction]; split_ifs <;> simp_all)

/-- C7: every invocation of the pulse-generator callback toggles the pulse
output level, and in the same invocation drives the laser ON-enable output
HIGH (de-asserted) when the trigger gate is 0 and LOW (asserted) when the
gate is nonzero. -/
theorem pulseGen_toggles_and_gates (st : St) :
    (LaserPulseGenerator st).pins.LaserPulses ≠ st.pins.LaserPulses ∧
    (LaserPulseGenerator st).pins.LaserPulses =
      (if st.pins.LaserPulses = HIGH then LOW else HIGH) ∧
    (LaserPulseGenerator st).pins.LaserONSignal =
      (if st.enableLaserTrigger = 0 then HIGH else LOW) := by
  cases hp : st.pins.LaserPulses <;>
    (simp only [LaserPulseGenerator, hp]; split_ifs <;> simp_all)

/-- C6: for every dial reading `r`, `SetPulseRate` computes the frequency
`0.156863 * r + 25` (0 gives 25 kHz, 255 gives 65 kHz up to rounding),
stores the half-period `500 / f` in `LaserPulsePeriod`, reconfigures the
pulse timer to that half-period, and writes `f * 10` to the display
encoder. -/
theorem setPulseRate_frequency_mapping (st : St) (r : Nat) :
    (SetPulseRate r st).laserPulsePeriod = 500 / (0.156863 * (r : ℚ) + 25) ∧
    (SetPulseRate r st).pulseTimerPeriod = (SetPulseRate r st).laserPulsePeriod ∧
    (SetPulseRate r st).display =
      cIntCast ((0.156863 * (r : ℚ) + 25) * 10 * DisplayMultiplier) ∧
    (0.156863 * (0 : ℚ) + 25 = 25) ∧
    |0.156863 * (255 : ℚ) + 25 - 65| < 1 / 100 := by
  refine ⟨rfl, rfl, rfl, by norm_num, ?_⟩
  rw [abs_sub_lt_iff]
  constructor <;> norm_num

/-- C10: running `AlarmActions` twice in a row with the same mode yields
the same final state and trace as running it once, with the alarm flash
timer at the 1-second period, display forced to zero, gate cleared, and
ON/MO de-asserted. -/
theorem alarmActions_idempotent (m : Nat) (st : St) :
    (AlarmActions m (AlarmActions m st).1).1 = (AlarmActions m st).1 ∧
    (AlarmActions m (AlarmActions m st).1).2 = (AlarmActions m st).2 ∧
    (AlarmActions m st).1.alarmTimerPeriod = some 1000000 ∧
    (AlarmActions m st).1.display = 0 ∧
    (AlarmActions m st).1.enableLaserTrigger = 0 ∧
    (AlarmActions m st).1.pins.LaserONSignal = HIGH ∧
    (AlarmActions m st).1.pins.LaserMOSignal = HIGH := by
  refine ⟨rfl, rfl, rfl, ?_, rfl, rfl, rfl⟩
  show cIntCast (0 * DisplayMultiplier) = 0
  norm_num [cIntCast]

/-- C8 counterexample: at input 3 the code writes `(int)(3 * 1.240909) = 3`
to the display while `round(3 * 1.240909) = 4`; so `DisplayOutput` does not
write the rounded value. -/
theorem displayOutput_not_round_at_three :
    (DisplayOutput 3 initialState).display = 3 ∧
    displayValueSpec 3 = 4 ∧
    (DisplayOutput 3 initialState).display ≠ displayValueSpec 3 := by
  refine ⟨?_, ?_, ?_⟩ <;>
    norm_num [DisplayOutput, displayValueSpec, cIntCast, DisplayMultiplier, round_eq]

/-- C8 (amended): for every input value `x`, `DisplayOutput x` writes the
C `(int)`-cast (truncation toward zero) of `x * DisplayMultiplier` to the
analog display output, performing no range clamping on the result (e.g. at
input 10000 it writes 12409, well beyond the 12-bit DAC range). -/
theorem displayOutput_truncation_no_clamp (st : St) (x : ℚ) :
    (DisplayOutput x st).display = cIntCast (x * DisplayMultiplier) ∧
    (DisplayOutput 10000 initialState).display = 12409 ∧
    4095 < (DisplayOutput 10000 initialState).display := by
  refine ⟨rfl, ?_, ?_⟩ <;>
    norm_num [DisplayOutput, cIntCast, DisplayMultiplier]

set_option maxHeartbeats 4000000 in
set_option maxRecDepth 8000 in
/-- C4: for every 8-bit dial value `v`, after `SetPowerLevel` runs with that
reading, each of the eight power-level outputs is driven LOW exactly when
the corresponding bit of `v` is 1 (active-low binary expansion), and the
stored `LaserPower` equals `v`. -/
theorem setPowerLevel_encodes_bits (st : St) (v : Nat) (hv : v < 256) :
    (SetPowerLevel v st).1.laserPower = v ∧
    (SetPowerLevel v st).1.pins.LaserPowerBit0 = (if v.testBit 0 then LOW else HIGH) ∧
    (SetPowerLevel v st).1.pins.LaserPowerBit1 = (if v.testBit 1 then LOW else HIGH) ∧
    (SetPowerLevel v st).1.pins.LaserPowerBit2 = (if v.testBit 2 then LOW else HIGH) ∧
    (SetPowerLevel v st).1.pins.LaserPowerBit3 = (if v.testBit 3 then LOW else HIGH) ∧
    (SetPowerLevel v st).1.pins.LaserPowerBit4 = (if v.testBit 4 then LOW else HIGH) ∧
    (SetPowerLevel v st).1.pins.LaserPowerBit5 = (if v.testBit 5 then LOW else HIGH) ∧
    (SetPowerLevel v st).1.pins.LaserPowerBit6 = (if v.testBit 6 then LOW else HIGH) ∧
    (SetPowerLevel v st).1.pins.LaserPowerBit7 = (if v.testBit 7 then LOW else HIGH) := by
  interval_cases v <;>
    exact ⟨rfl, rfl, rfl, rfl, rfl, rfl, rfl, rfl, rfl⟩

/-- Witness for C4 at dial value 170 in the initial state. -/
theorem setPowerLevel_encodes_bits_witness :
    (170 : Nat) < 256 ∧
    ((SetPowerLevel 170 initialState).1.laserPower = 170 ∧
     (SetPowerLevel 170 initialState).1.pins.LaserPowerBit0 =
       (if (170 : Nat).testBit 0 then LOW else HIGH) ∧
     (SetPowerLevel 170 initialState).1.pins.LaserPowerBit1 =
       (if (170 : Nat).testBit 1 then LOW else HIGH) ∧
     (SetPowerLevel 170 initialState).1.pins.LaserPowerBit2 =
       (if (170 : Nat).testBit 2 then LOW else HIGH) ∧
     (SetPowerLevel 170 initialState).1.pins.LaserPowerBit3 =
       (if (170 : Nat).testBit 3 then LOW else HIGH) ∧
     (SetPowerLevel 170 initialState).1.pins.LaserPowerBit4 =
       (if (170 : Nat).testBit 4 then LOW else HIGH) ∧
     (SetPowerLevel 170 initialState).1.pins.LaserPowerBit5 =
       (if (170 : Nat).testBit 5 then LOW else HIGH) ∧
     (SetPowerLevel 170 initialState).1.pins.LaserPowerBit6 =
       (if (170 : Nat).testBit 6 then LOW else HIGH) ∧
     (SetPowerLevel 170 initialState).1.pins.LaserPowerBit7 =
       (if (170 : Nat).testBit 7 then LOW else HIGH)) :=
  ⟨by norm_num, setPowerLevel_encodes_bits initialState 170 (by norm_num)⟩

lemma shutdownSeq_append_left (l tr : List Ev) (h : ShutdownSeq tr) :
    ShutdownSeq (l ++ tr) := by
  obtain ⟨pre, post, rfl⟩ := h
  exact ⟨l ++ pre, post, by simp⟩

/-- Every branch of `ModeRunFunction` other than mode 0 emits the shutdown
ordering ON-HIGH, `delay(1)`, MO-HIGH. -/
lemma modeRun_shutdownSeq (d m : Nat) (s : St) (hm : m ≠ 0) :
    ShutdownSeq (ModeRunFunction d m s).2 := by
  unfold ModeRunFunction
  split_ifs
  · exact absurd (by assumption) hm
  all_goals exact ⟨[], _, rfl⟩

/-- Every branch of `ModeRunFunction` other than mode 0 clears the trigger
gate. -/
lemma modeRun_gate_zero_of_ne (d m : Nat) (s : St) (hm : m ≠ 0) :
    (ModeRunFunction d m s).1.enableLaserTrigger = 0 := by
  unfold ModeRunFunction
  split_ifs
  · exact absurd (by assumption) hm
  all_goals
    simp only [SetPulseRate, AlarmActions, DisplayOutput,
      setPowerLevel_enableLaserTrigger]

/-- C5: in every cycle whose resulting mode is nonzero (IDLE, OFF_SET_RATE
or any alarm mode), the shutdown ordering holds: the trigger gate is
cleared, and the ON-enable output is de-asserted strictly before the
MO-enable output is de-asserted, with a 1 ms blocking wait between the two
de-assertions. -/
theorem shutdown_ordering (sd : Bool) (inp : Inputs) (st : St)
    (h : (loopCycle sd inp st).1.operatingMode ≠ 0) :
    ShutdownSeq (loopCycle sd inp st).2 ∧
      (loopCycle sd inp st).1.enableLaserTrigger = 0 := by
  have e : (loopCycle sd inp st).1.operatingMode =
      (GetModeFunction inp (serialBlock sd st).operatingMode (serialBlock sd st)).1 := by
    simp only [loopCycle]
    rw [modeRun_operatingMode]
  rw [e] at h
  exact ⟨shutdownSeq_append_left _ _ (modeRun_shutdownSeq inp.dial _ _ h),
    modeRun_gate_zero_of_ne inp.dial _ _ h⟩

/-- Witness for C5: from the initial state with both switches HIGH and no
alarm, the cycle ends in mode 1. -/
theorem shutdown_ordering_witness :
    (loopCycle false ⟨LOW, HIGH, HIGH, HIGH, 0⟩ initialState).1.operatingMode ≠ 0 ∧
    (ShutdownSeq (loopCycle false ⟨LOW, HIGH, HIGH, HIGH, 0⟩ initialState).2 ∧
      (loopCycle false ⟨LOW, HIGH, HIGH, HIGH, 0⟩ initialState).1.enableLaserTrigger = 0) :=
  ⟨by decide, shutdown_ordering false ⟨LOW, HIGH, HIGH, HIGH, 0⟩ initialState (by decide)⟩

/-- C1 (evaluation at the failing input): from the initial state (mode 7,
MO-enable and ON-enable both de-asserted), with no alarm indicated
(LSB=0, MSB=1) and switch 1 LOW, one `loop()` cycle ends in mode 0 with MO
and ON both asserted, yet the cycle's trace separates the MO assertion from
the ON assertion by 0 ms of blocking delay: `GetModeFunction` skips the
startup sequence because the current mode 7 is neither 1 nor 2, and
`ModeRunFunction`'s mode-0 branch asserts MO and ON back-to-back.  By
contrast, the same inputs from current mode 1 give the mandated 5 ms
separation. -/
theorem startup_separation_violation :
    initialState.pins.LaserMOSignal = HIGH ∧
    initialState.pins.LaserONSignal = HIGH ∧
    (loopCycle false ⟨LOW, HIGH, LOW, HIGH, 0⟩ initialState).1.operatingMode = 0 ∧
    (loopCycle false ⟨LOW, HIGH, LOW, HIGH, 0⟩ initialState).1.pins.LaserMOSignal = LOW ∧
    (loopCycle false ⟨LOW, HIGH, LOW, HIGH, 0⟩ initialState).1.pins.LaserONSignal = LOW ∧
    moToOnSeparation (loopCycle false ⟨LOW, HIGH, LOW, HIGH, 0⟩ initialState).2 = some 0 ∧
    moToOnSeparation (loopCycle false ⟨LOW, HIGH, LOW, HIGH, 0⟩
      { initialState with operatingMode := 1 }).2 = some 5 := by
  refine ⟨rfl, rfl, ?_, ?_, ?_, ?_, ?_⟩ <;> decide
